import Mathlib

/-!
Shallow embedding of `waymo_open_dataset/utils/sim_agents/submission_specs.py`.

The module defines the submission configurations for the Sim Agents and
Scenario Gen challenges, resolves which agents of a scenario must be
simulated and which are evaluated, and validates submitted rollouts.
Python exceptions are modelled with `Except ValidationError`; proto
messages become plain structures holding exactly the fields the module
reads. Out-of-range sequence indexing (a Python `IndexError`) is kept
explicit through the two index-error constructors.
-/

deriving instance DecidableEq for Except

/-- Per-timestep state of a track; the module only reads the `valid` flag. -/
structure ObjectState where
  valid : Bool
deriving DecidableEq

/-- A track proto: an object id plus its per-step states. -/
structure Track where
  id : Int
  states : List ObjectState
deriving DecidableEq

/-- One entry of `tracks_to_predict`, referencing a track by index. -/
structure RequiredPrediction where
  track_index : Nat
deriving DecidableEq

/-- The parts of a `Scenario` proto read by the module. -/
structure Scenario where
  tracks : List Track
  sdc_track_index : Nat
  tracks_to_predict : List RequiredPrediction
deriving DecidableEq

/-- The closed enumeration of challenge types. -/
inductive ChallengeType where
  | SIM_AGENTS
  | SCENARIO_GEN
deriving DecidableEq

/-- Configuration for a valid submission. -/
structure SubmissionConfig where
  current_time_index : Nat
  n_simulation_steps : Nat
  n_rollouts : Nat
  step_duration_seconds : ℚ
deriving DecidableEq

/-- The four numeric fields of a simulated trajectory checked for length. -/
inductive TrajectoryField where
  | center_x
  | center_y
  | center_z
  | heading
deriving DecidableEq

/-- A `SimulatedTrajectory` proto: an object id and four numeric sequences. -/
structure SimulatedTrajectory where
  object_id : Int
  center_x : List ℚ
  center_y : List ℚ
  center_z : List ℚ
  heading : List ℚ
deriving DecidableEq

/-- A `JointScene` proto: the simulated trajectories of one rollout. -/
structure JointScene where
  simulated_trajectories : List SimulatedTrajectory
deriving DecidableEq

/-- A `ScenarioRollouts` proto: optional-presence scenario id plus scenes. -/
structure ScenarioRollouts where
  scenario_id : Option String
  joint_scenes : List JointScene
deriving DecidableEq

/-- The errors raised by the module, one constructor per `ValueError`
message shape, plus the two possible Python `IndexError` sites. -/
inductive ValidationError where
  | InvalidArgument
  | ShapeMismatch (field : TrajectoryField) (actual expected : Nat)
  | UnknownAgent (object_id : Int)
  | MissingAgents (missing : List Int) (simulated_ids : List Int)
  | MissingField
  | CountMismatch (actual expected : Nat)
  | StatesIndexError
  | TracksIndexError
deriving DecidableEq

/-- Embeds `SubmissionConfig.is_valid_sim_agent`: looks up the state at
`current_time_index` and returns its `valid` flag; indexing out of range
is the explicit `StatesIndexError`. -/
def SubmissionConfig.is_valid_sim_agent (config : SubmissionConfig)
    (track : Track) : Except ValidationError Bool :=
  match track.states[config.current_time_index]? with
  | some st => .ok st.valid
  | none => .error .StatesIndexError

/-- Embeds `_SIM_AGENTS_SUBMISSION_CONFIG`. -/
def SIM_AGENTS_SUBMISSION_CONFIG : SubmissionConfig :=
  { current_time_index := 10
    n_simulation_steps := 80
    n_rollouts := 32
    step_duration_seconds := 1/10 }

/-- Embeds `_SCENARIO_GEN_SUBMISSION_CONFIG`. -/
def SCENARIO_GEN_SUBMISSION_CONFIG : SubmissionConfig :=
  { current_time_index := 10
    n_simulation_steps := 91
    n_rollouts := 32
    step_duration_seconds := 1/10 }

/-- Embeds `get_submission_config`. The Python `else` branch raising
`ValueError` is unreachable here because `ChallengeType` is a closed
enumeration with exactly the two handled values. -/
def get_submission_config : ChallengeType → SubmissionConfig
  | .SIM_AGENTS => SIM_AGENTS_SUBMISSION_CONFIG
  | .SCENARIO_GEN => SCENARIO_GEN_SUBMISSION_CONFIG

/-- The loop of `get_sim_agent_ids`: keep the id of every track whose
validity check succeeds with `true`, in track order. -/
def sim_agent_ids_loop (config : SubmissionConfig) :
    List Track → Except ValidationError (List Int)
  | [] => .ok []
  | track :: rest =>
    match config.is_valid_sim_agent track with
    | .error e => .error e
    | .ok b =>
      match sim_agent_ids_loop config rest with
      | .error e => .error e
      | .ok object_ids => .ok (if b then track.id :: object_ids else object_ids)

/-- Embeds `get_sim_agent_ids`. -/
def get_sim_agent_ids (scenario : Scenario)
    (challenge_type : ChallengeType) : Except ValidationError (List Int) :=
  sim_agent_ids_loop (get_submission_config challenge_type) scenario.tracks

/-- The `tracks_to_predict` loop of `get_evaluation_sim_agent_ids`: add
the id of each referenced track to the set (modelled as a duplicate-free
list, insertion order). -/
def add_predicted_ids (tracks : List Track) :
    List RequiredPrediction → List Int → Except ValidationError (List Int)
  | [], object_ids => .ok object_ids
  | rp :: rest, object_ids =>
    match tracks[rp.track_index]? with
    | some track =>
      add_predicted_ids tracks rest
        (if track.id ∈ object_ids then object_ids else object_ids ++ [track.id])
    | none => .error .TracksIndexError

/-- Embeds `get_evaluation_sim_agent_ids`: for SIM_AGENTS, the sorted set
of the SDC track id and the `tracks_to_predict` ids; for SCENARIO_GEN,
exactly `get_sim_agent_ids`. The Python `else` branch is unreachable for
the closed enumeration. -/
def get_evaluation_sim_agent_ids (scenario : Scenario)
    (challenge_type : ChallengeType) : Except ValidationError (List Int) :=
  match challenge_type with
  | .SIM_AGENTS =>
    match scenario.tracks[scenario.sdc_track_index]? with
    | none => .error .TracksIndexError
    | some sdc_track =>
      match add_predicted_ids scenario.tracks scenario.tracks_to_predict
          [sdc_track.id] with
      | .error e => .error e
      | .ok object_ids => .ok (object_ids.insertionSort (· ≤ ·))
  | .SCENARIO_GEN => get_sim_agent_ids scenario .SCENARIO_GEN

/-- Field projection standing in for the Python `getattr` on the four
trajectory field names. -/
def SimulatedTrajectory.getField (trajectory : SimulatedTrajectory) :
    TrajectoryField → List ℚ
  | .center_x => trajectory.center_x
  | .center_y => trajectory.center_y
  | .center_z => trajectory.center_z
  | .heading => trajectory.heading

/-- Embeds `_raise_if_wrong_length`. -/
def raise_if_wrong_length (trajectory : SimulatedTrajectory)
    (field : TrajectoryField) (expected_length : Nat) :
    Except ValidationError Unit :=
  if (trajectory.getField field).length ≠ expected_length then
    .error (.ShapeMismatch field (trajectory.getField field).length
      expected_length)
  else
    .ok ()

/-- The per-trajectory body of the `validate_joint_scene` loop: the four
length checks in field order, then the membership check. -/
def check_trajectory (sim_agent_ids : List Int) (n_steps : Nat)
    (trajectory : SimulatedTrajectory) : Except ValidationError Unit :=
  match raise_if_wrong_length trajectory .center_x n_steps with
  | .error e => .error e
  | .ok _ =>
  match raise_if_wrong_length trajectory .center_y n_steps with
  | .error e => .error e
  | .ok _ =>
  match raise_if_wrong_length trajectory .center_z n_steps with
  | .error e => .error e
  | .ok _ =>
  match raise_if_wrong_length trajectory .heading n_steps with
  | .error e => .error e
  | .ok _ =>
  if trajectory.object_id ∈ sim_agent_ids then .ok ()
  else .error (.UnknownAgent trajectory.object_id)

/-- The trajectory loop of `validate_joint_scene`, accumulating the seen
object ids in order. -/
def joint_scene_loop (sim_agent_ids : List Int) (n_steps : Nat) :
    List SimulatedTrajectory → List Int → Except ValidationError (List Int)
  | [], simulated_ids => .ok simulated_ids
  | trajectory :: rest, simulated_ids =>
    match check_trajectory sim_agent_ids n_steps trajectory with
    | .error e => .error e
    | .ok _ =>
      joint_scene_loop sim_agent_ids n_steps rest
        (simulated_ids ++ [trajectory.object_id])

/-- Embeds `validate_joint_scene`: length and membership checks per
trajectory in order, then the missing-agents check by set difference. -/
def validate_joint_scene (joint_scene : JointScene)
    (original_scenario : Scenario) (challenge_type : ChallengeType) :
    Except ValidationError Unit :=
  match get_sim_agent_ids original_scenario challenge_type with
  | .error e => .error e
  | .ok sim_agent_ids =>
    match joint_scene_loop sim_agent_ids
        (get_submission_config challenge_type).n_simulation_steps
        joint_scene.simulated_trajectories [] with
    | .error e => .error e
    | .ok simulated_ids =>
      if (sim_agent_ids.filter (fun i => decide (i ∉ simulated_ids))).dedup
          ≠ [] then
        .error (.MissingAgents
          ((sim_agent_ids.filter (fun i => decide (i ∉ simulated_ids))).dedup)
          simulated_ids)
      else
        .ok ()

/-- The scene loop of `validate_scenario_rollouts`; the first failing
scene aborts the call. -/
def rollouts_loop (original_scenario : Scenario)
    (challenge_type : ChallengeType) :
    List JointScene → Except ValidationError Unit
  | [] => .ok ()
  | joint_scene :: rest =>
    match validate_joint_scene joint_scene original_scenario challenge_type with
    | .error e => .error e
    | .ok _ => rollouts_loop original_scenario challenge_type rest

/-- Embeds `validate_scenario_rollouts`: presence of `scenario_id`, the
rollout count, then every joint scene in order. -/
def validate_scenario_rollouts (scenario_rollouts : ScenarioRollouts)
    (original_scenario : Scenario) (challenge_type : ChallengeType) :
    Except ValidationError Unit :=
  if scenario_rollouts.scenario_id.isNone then
    .error .MissingField
  else if scenario_rollouts.joint_scenes.length
      ≠ (get_submission_config challenge_type).n_rollouts then
    .error (.CountMismatch scenario_rollouts.joint_scenes.length
      (get_submission_config challenge_type).n_rollouts)
  else
    rollouts_loop original_scenario challenge_type
      scenario_rollouts.joint_scenes

/-- Whether a track has a state at index `i` that is marked valid. This is
the specification-level reading of the eligibility predicate. -/
def Track.validAt (track : Track) (i : Nat) : Bool :=
  match track.states[i]? with
  | some st => st.valid
  | none => false

/-- Conformance of a single simulated trajectory: the four numeric fields
have exactly `n_steps` entries and the object id is a required sim agent. -/
def trajectory_ok (sim_agent_ids : List Int) (n_steps : Nat)
    (trajectory : SimulatedTrajectory) : Prop :=
  trajectory.center_x.length = n_steps ∧
  trajectory.center_y.length = n_steps ∧
  trajectory.center_z.length = n_steps ∧
  trajectory.heading.length = n_steps ∧
  trajectory.object_id ∈ sim_agent_ids

instance (sim_agent_ids : List Int) (n_steps : Nat)
    (trajectory : SimulatedTrajectory) :
    Decidable (trajectory_ok sim_agent_ids n_steps trajectory) := by
  unfold trajectory_ok
  infer_instance

/-- Recognizer for the shape-mismatch error kind. -/
def ValidationError.isShapeMismatch : ValidationError → Bool
  | .ShapeMismatch .. => true
  | _ => false

/-- Recognizer for the unknown-agent error kind. -/
def ValidationError.isUnknownAgent : ValidationError → Bool
  | .UnknownAgent _ => true
  | _ => false

/-- Recognizer for the missing-agents error kind. -/
def ValidationError.isMissingAgents : ValidationError → Bool
  | .MissingAgents .. => true
  | _ => false

/-- Specification of the evaluation id list for SIM_AGENTS, following the
spec text: sorted ascending, duplicate free, and containing exactly the
SDC track id together with the ids referenced by `tracks_to_predict`. -/
def evaluation_ids_spec (scenario : Scenario) (l : List Int) : Prop :=
  l.Sorted (· ≤ ·) ∧ l.Nodup ∧
  ∀ i : Int, i ∈ l ↔
    (scenario.tracks[scenario.sdc_track_index]?.map Track.id = some i ∨
     ∃ rp ∈ scenario.tracks_to_predict,
       scenario.tracks[rp.track_index]?.map Track.id = some i)

/-- A state marked valid, for the concrete examples below. -/
def validState : ObjectState := { valid := true }

/-- A state marked invalid, for the concrete examples below. -/
def invalidState : ObjectState := { valid := false }

/-- Example track with id 1, valid at every one of its 11 steps. -/
def trackA : Track := { id := 1, states := List.replicate 11 validState }

/-- Example track with id 2, valid at every one of its 11 steps. -/
def trackB : Track := { id := 2, states := List.replicate 11 validState }

/-- Example track with id 3 whose state at index 10 is invalid. -/
def trackC : Track :=
  { id := 3, states := List.replicate 10 validState ++ [invalidState] }

/-- Example track with id 1 that is invalid at every step. -/
def trackInvalid : Track :=
  { id := 1, states := List.replicate 11 invalidState }

/-- Example scenario: two everywhere-valid tracks, the SDC at index 0 and
a prediction requirement on index 1. -/
def scenarioW : Scenario :=
  { tracks := [trackA, trackB]
    sdc_track_index := 0
    tracks_to_predict := [{ track_index := 1 }] }

/-- Example scenario mixing a valid track with one invalid at step 10. -/
def scenarioMixed : Scenario :=
  { tracks := [trackA, trackC]
    sdc_track_index := 0
    tracks_to_predict := [] }

/-- Example scenario whose single track (the SDC) is invalid at step 10. -/
def scenarioCex : Scenario :=
  { tracks := [trackInvalid]
    sdc_track_index := 0
    tracks_to_predict := [] }

/-- Example trajectory with 80 steps in each field. -/
def trajW (i : Int) : SimulatedTrajectory :=
  { object_id := i
    center_x := List.replicate 80 0
    center_y := List.replicate 80 0
    center_z := List.replicate 80 0
    heading := List.replicate 80 0 }

/-- Example joint scene covering both tracks of `scenarioW`. -/
def jointSceneW : JointScene := { simulated_trajectories := [trajW 1, trajW 2] }

/-- Example joint scene with a duplicated trajectory for id 1. -/
def jointSceneDup : JointScene :=
  { simulated_trajectories := [trajW 1, trajW 1, trajW 2] }

/-- Example rollouts: 32 copies of the covering joint scene. -/
def rolloutsW : ScenarioRollouts :=
  { scenario_id := some ("sid")
    joint_scenes := List.replicate 32 jointSceneW }

theorem raise_if_wrong_length_ok_iff (trajectory : SimulatedTrajectory)
    (field : TrajectoryField) (n : Nat) :
    raise_if_wrong_length trajectory field n = .ok () ↔
      (trajectory.getField field).length = n := by
  unfold raise_if_wrong_length
  by_cases h : (trajectory.getField field).length = n <;> simp [h]

theorem raise_if_wrong_length_error_inv (trajectory : SimulatedTrajectory)
    (field : TrajectoryField) (n : Nat) (e : ValidationError) :
    raise_if_wrong_length trajectory field n = .error e →
      e = .ShapeMismatch field (trajectory.getField field).length n ∧
      (trajectory.getField field).length ≠ n := by
  unfold raise_if_wrong_length
  by_cases h : (trajectory.getField field).length = n <;> simp [h]
  intro he
  exact he.symm

theorem check_trajectory_ok_iff (sim_agent_ids : List Int) (n : Nat)
    (t : SimulatedTrajectory) :
    check_trajectory sim_agent_ids n t = .ok () ↔
      trajectory_ok sim_agent_ids n t := by
  by_cases hx : t.center_x.length = n <;>
  by_cases hy : t.center_y.length = n <;>
  by_cases hz : t.center_z.length = n <;>
  by_cases hh : t.heading.length = n <;>
  by_cases hm : t.object_id ∈ sim_agent_ids <;>
  simp [check_trajectory, trajectory_ok, raise_if_wrong_length,
    SimulatedTrajectory.getField, hx, hy, hz, hh, hm]

theorem check_trajectory_error_kind (sim_agent_ids : List Int) (n : Nat)
    (t : SimulatedTrajectory) (e : ValidationError) :
    check_trajectory sim_agent_ids n t = .error e →
      e.isShapeMismatch = true ∨ e.isUnknownAgent = true := by
  by_cases hx : t.center_x.length = n <;>
  by_cases hy : t.center_y.length = n <;>
  by_cases hz : t.center_z.length = n <;>
  by_cases hh : t.heading.length = n <;>
  by_cases hm : t.object_id ∈ sim_agent_ids <;>
  simp [check_trajectory, raise_if_wrong_length,
    SimulatedTrajectory.getField, hx, hy, hz, hh, hm] <;>
  (try rintro rfl) <;>
  simp [ValidationError.isShapeMismatch, ValidationError.isUnknownAgent]

theorem joint_scene_loop_ok_of (sim_agent_ids : List Int) (n : Nat) :
    ∀ (trajs : List SimulatedTrajectory) (acc : List Int),
      (∀ t ∈ trajs, trajectory_ok sim_agent_ids n t) →
      joint_scene_loop sim_agent_ids n trajs acc =
        .ok (acc ++ trajs.map SimulatedTrajectory.object_id)
  | [], acc, _ => by simp [joint_scene_loop]
  | t :: rest, acc, h => by
    have ht : check_trajectory sim_agent_ids n t = .ok () :=
      (check_trajectory_ok_iff sim_agent_ids n t).mpr (h t (by simp))
    have ih := joint_scene_loop_ok_of sim_agent_ids n rest
      (acc ++ [t.object_id]) (fun u hu => h u (by simp [hu]))
    simp [joint_scene_loop, ht, ih]

theorem joint_scene_loop_ok_inv (sim_agent_ids : List Int) (n : Nat) :
    ∀ (trajs : List SimulatedTrajectory) (acc res : List Int),
      joint_scene_loop sim_agent_ids n trajs acc = .ok res →
      (∀ t ∈ trajs, trajectory_ok sim_agent_ids n t) ∧
      res = acc ++ trajs.map SimulatedTrajectory.object_id
  | [], acc, res => by
    intro h
    simp [joint_scene_loop] at h
    simp [h]
  | t :: rest, acc, res => by
    intro h
    simp only [joint_scene_loop] at h
    cases hc : check_trajectory sim_agent_ids n t with
    | error e => rw [hc] at h; simp at h
    | ok u =>
      cases u
      rw [hc] at h
      simp only at h
      obtain ⟨hall, hres⟩ :=
        joint_scene_loop_ok_inv sim_agent_ids n rest (acc ++ [t.object_id]) res h
      refine ⟨?_, ?_⟩
      · intro v hv
        rcases List.mem_cons.mp hv with rfl | hv
        · exact (check_trajectory_ok_iff sim_agent_ids n v).mp hc
        · exact hall v hv
      · simpa using hres

theorem joint_scene_loop_error_kind (sim_agent_ids : List Int) (n : Nat) :
    ∀ (trajs : List SimulatedTrajectory) (acc : List Int) (e : ValidationError),
      joint_scene_loop sim_agent_ids n trajs acc = .error e →
      e.isShapeMismatch = true ∨ e.isUnknownAgent = true
  | [], acc, e => by simp [joint_scene_loop]
  | t :: rest, acc, e => by
    intro h
    simp only [joint_scene_loop] at h
    cases hc : check_trajectory sim_agent_ids n t with
    | error e2 =>
      rw [hc] at h
      simp only at h
      injection h with h2
      subst h2
      exact check_trajectory_error_kind sim_agent_ids n t e2 hc
    | ok u =>
      rw [hc] at h
      simp only at h
      exact joint_scene_loop_error_kind sim_agent_ids n rest
        (acc ++ [t.object_id]) e h

theorem joint_scene_loop_first_error (sim_agent_ids : List Int) (n : Nat) :
    ∀ (l1 : List SimulatedTrajectory) (t : SimulatedTrajectory)
      (l2 : List SimulatedTrajectory) (acc : List Int) (e : ValidationError),
      (∀ u ∈ l1, trajectory_ok sim_agent_ids n u) →
      check_trajectory sim_agent_ids n t = .error e →
      joint_scene_loop sim_agent_ids n (l1 ++ t :: l2) acc = .error e
  | [], t, l2, acc, e => by
    intro _ hterr
    simp [joint_scene_loop, hterr]
  | u :: rest, t, l2, acc, e => by
    intro h1 hterr
    have hu : check_trajectory sim_agent_ids n u = .ok () :=
      (check_trajectory_ok_iff sim_agent_ids n u).mpr (h1 u (by simp))
    simp only [List.cons_append, joint_scene_loop, hu]
    exact joint_scene_loop_first_error sim_agent_ids n rest t l2
      (acc ++ [u.object_id]) e (fun v hv => h1 v (by simp [hv])) hterr

theorem missing_filter_nil (ids simulated : List Int) :
    (ids.filter (fun i => decide (i ∉ simulated))).dedup = [] ↔
      ∀ i ∈ ids, i ∈ simulated := by
  rw [List.dedup_eq_nil, List.filter_eq_nil_iff]
  simp

/-- C1: for any joint scene, scenario and profile whose required-id
resolution succeeds, `validate_joint_scene` returns without error iff
every trajectory has all four field lengths equal to the profile
`n_simulation_steps` and an `object_id` among the required sim agents,
and every required id appears as the `object_id` of some trajectory;
a violating trajectory aborts the call with its own error, the first
violation in trajectory order winning, and every failure is one of
`ShapeMismatch`, `UnknownAgent` or `MissingAgents`. -/
theorem validate_joint_scene_correct (joint_scene : JointScene)
    (original_scenario : Scenario) (challenge_type : ChallengeType)
    (ids : List Int)
    (h : get_sim_agent_ids original_scenario challenge_type = .ok ids) :
    (validate_joint_scene joint_scene original_scenario challenge_type
        = .ok () ↔
      ((∀ t ∈ joint_scene.simulated_trajectories,
          trajectory_ok ids
            (get_submission_config challenge_type).n_simulation_steps t) ∧
        ∀ i ∈ ids, ∃ t ∈ joint_scene.simulated_trajectories,
          t.object_id = i)) ∧
    (∀ (l1 : List SimulatedTrajectory) (t : SimulatedTrajectory)
        (l2 : List SimulatedTrajectory) (e : ValidationError),
        joint_scene.simulated_trajectories = l1 ++ t :: l2 →
        (∀ u ∈ l1, trajectory_ok ids
          (get_submission_config challenge_type).n_simulation_steps u) →
        check_trajectory ids
          (get_submission_config challenge_type).n_simulation_steps t
          = .error e →
        validate_joint_scene joint_scene original_scenario challenge_type
          = .error e) ∧
    (∀ e, validate_joint_scene joint_scene original_scenario challenge_type
        = .error e →
      e.isShapeMismatch = true ∨ e.isUnknownAgent = true ∨
        e.isMissingAgents = true) := by
  unfold validate_joint_scene
  rw [h]
  simp only
  refine ⟨?_, ?_, ?_⟩
  · cases hloop : joint_scene_loop ids
        (get_submission_config challenge_type).n_simulation_steps
        joint_scene.simulated_trajectories [] with
    | error e =>
      simp only
      constructor
      · intro hab
        exact absurd hab (by simp)
      · rintro ⟨hall, _⟩
        have hok := joint_scene_loop_ok_of ids
          (get_submission_config challenge_type).n_simulation_steps
          joint_scene.simulated_trajectories [] hall
        rw [hok] at hloop
        exact absurd hloop (by simp)
    | ok res =>
      obtain ⟨hall, hres⟩ := joint_scene_loop_ok_inv ids
        (get_submission_config challenge_type).n_simulation_steps
        joint_scene.simulated_trajectories [] res hloop
      simp only [List.nil_append] at hres
      subst hres
      constructor
      · intro hok2
        simp only [ne_eq] at hok2
        split_ifs at hok2 with hcond
        have hcov := (missing_filter_nil ids _).mp hcond
        exact ⟨hall, fun i hi => List.mem_map.mp (hcov i hi)⟩
      · rintro ⟨_, hcov2⟩
        have hcov : ∀ i ∈ ids,
            i ∈ joint_scene.simulated_trajectories.map
              SimulatedTrajectory.object_id := by
          intro i hi
          obtain ⟨t, ht, hti⟩ := hcov2 i hi
          exact List.mem_map.mpr ⟨t, ht, hti⟩
        have hnil := (missing_filter_nil ids _).mpr hcov
        simp [hnil]
        exact hcov2
  · intro l1 t l2 e hsplit hpre hterr
    rw [hsplit]
    rw [joint_scene_loop_first_error ids
      (get_submission_config challenge_type).n_simulation_steps
      l1 t l2 [] e hpre hterr]
  · intro e he
    cases hloop : joint_scene_loop ids
        (get_submission_config challenge_type).n_simulation_steps
        joint_scene.simulated_trajectories [] with
    | error e2 =>
      rw [hloop] at he
      simp only at he
      injection he with he2
      subst he2
      rcases joint_scene_loop_error_kind ids
        (get_submission_config challenge_type).n_simulation_steps
        joint_scene.simulated_trajectories [] e2 hloop with hk | hk
      · exact Or.inl hk
      · exact Or.inr (Or.inl hk)
    | ok res =>
      rw [hloop] at he
      simp only [ne_eq] at he
      split_ifs at he with hcond
      injection he with he2
      subst he2
      exact Or.inr (Or.inr rfl)

theorem rollouts_loop_ok_iff (original_scenario : Scenario)
    (challenge_type : ChallengeType) :
    ∀ scenes : List JointScene,
      rollouts_loop original_scenario challenge_type scenes = .ok () ↔
      ∀ js ∈ scenes,
        validate_joint_scene js original_scenario challenge_type = .ok ()
  | [] => by simp [rollouts_loop]
  | js :: rest => by
    cases hv : validate_joint_scene js original_scenario challenge_type with
    | error e => simp [rollouts_loop, hv]
    | ok u =>
      cases u
      simp [rollouts_loop, hv,
        rollouts_loop_ok_iff original_scenario challenge_type rest]

theorem rollouts_loop_first_error (original_scenario : Scenario)
    (challenge_type : ChallengeType) :
    ∀ (l1 : List JointScene) (js : JointScene) (l2 : List JointScene)
      (e : ValidationError),
      (∀ u ∈ l1,
        validate_joint_scene u original_scenario challenge_type = .ok ()) →
      validate_joint_scene js original_scenario challenge_type = .error e →
      rollouts_loop original_scenario challenge_type (l1 ++ js :: l2)
        = .error e
  | [], js, l2, e => by
    intro _ hjs
    simp [rollouts_loop, hjs]
  | u :: rest, js, l2, e => by
    intro h1 hjs
    have hu := h1 u (by simp)
    simp only [List.cons_append, rollouts_loop, hu]
    exact rollouts_loop_first_error original_scenario challenge_type rest js
      l2 e (fun v hv => h1 v (by simp [hv])) hjs

/-- C2: `validate_scenario_rollouts` succeeds iff the `scenario_id` field
is present, the number of joint scenes equals the profile `n_rollouts`,
and every joint scene validates; a missing id fails with `MissingField`,
a count mismatch fails with `CountMismatch` carrying actual and expected,
and otherwise the first failing joint scene in order aborts the call with
its own error. -/
theorem validate_scenario_rollouts_correct
    (scenario_rollouts : ScenarioRollouts) (original_scenario : Scenario)
    (challenge_type : ChallengeType) :
    (validate_scenario_rollouts scenario_rollouts original_scenario
        challenge_type = .ok () ↔
      (scenario_rollouts.scenario_id.isSome = true ∧
        scenario_rollouts.joint_scenes.length =
          (get_submission_config challenge_type).n_rollouts ∧
        ∀ js ∈ scenario_rollouts.joint_scenes,
          validate_joint_scene js original_scenario challenge_type
            = .ok ())) ∧
    (scenario_rollouts.scenario_id = none →
      validate_scenario_rollouts scenario_rollouts original_scenario
        challenge_type = .error .MissingField) ∧
    (scenario_rollouts.scenario_id.isSome = true →
      scenario_rollouts.joint_scenes.length ≠
        (get_submission_config challenge_type).n_rollouts →
      validate_scenario_rollouts scenario_rollouts original_scenario
        challenge_type = .error (.CountMismatch
          scenario_rollouts.joint_scenes.length
          (get_submission_config challenge_type).n_rollouts)) ∧
    (∀ (l1 : List JointScene) (js : JointScene) (l2 : List JointScene)
        (e : ValidationError),
      scenario_rollouts.joint_scenes = l1 ++ js :: l2 →
      (∀ u ∈ l1,
        validate_joint_scene u original_scenario challenge_type = .ok ()) →
      validate_joint_scene js original_scenario challenge_type = .error e →
      scenario_rollouts.scenario_id.isSome = true →
      scenario_rollouts.joint_scenes.length =
        (get_submission_config challenge_type).n_rollouts →
      validate_scenario_rollouts scenario_rollouts original_scenario
        challenge_type = .error e) := by
  refine ⟨?_, ?_, ?_, ?_⟩
  · unfold validate_scenario_rollouts
    split_ifs with h1 h2
    · rw [Option.isNone_iff_eq_none] at h1
      simp [h1]
    · simp [h2]
    · rw [rollouts_loop_ok_iff]
      have hsome : scenario_rollouts.scenario_id.isSome = true := by
        cases hs : scenario_rollouts.scenario_id
        · rw [hs] at h1
          simp at h1
        · simp
      have hlen := not_not.mp h2
      simp [hsome, hlen]
  · intro hnone
    unfold validate_scenario_rollouts
    rw [if_pos (by simp [hnone])]
  · intro hsome hlen
    unfold validate_scenario_rollouts
    rw [if_neg (by simp [Option.isNone_iff_eq_none, ← Option.isSome_iff_ne_none, hsome])]
    rw [if_pos hlen]
  · intro l1 js l2 e hsplit hpre hjs hsome hlen
    unfold validate_scenario_rollouts
    rw [if_neg (by simp [Option.isNone_iff_eq_none, ← Option.isSome_iff_ne_none, hsome])]
    rw [if_neg (not_not_intro hlen)]
    rw [hsplit]
    exact rollouts_loop_first_error original_scenario challenge_type l1 js
      l2 e hpre hjs

theorem is_valid_sim_agent_of_lt (config : SubmissionConfig) (track : Track)
    (h : config.current_time_index < track.states.length) :
    config.is_valid_sim_agent track =
      .ok (track.validAt config.current_time_index) := by
  unfold SubmissionConfig.is_valid_sim_agent Track.validAt
  rw [List.getElem?_eq_getElem h]

theorem is_valid_sim_agent_oob (config : SubmissionConfig) (track : Track)
    (h : ¬ config.current_time_index < track.states.length) :
    config.is_valid_sim_agent track = .error .StatesIndexError := by
  unfold SubmissionConfig.is_valid_sim_agent
  rw [List.getElem?_eq_none (Nat.le_of_not_lt h)]

theorem is_valid_sim_agent_error_inv (config : SubmissionConfig)
    (track : Track) (e : ValidationError) :
    config.is_valid_sim_agent track = .error e → e = .StatesIndexError := by
  unfold SubmissionConfig.is_valid_sim_agent
  cases h : track.states[config.current_time_index]? with
  | none =>
    intro h2
    injection h2 with h3
    exact h3.symm
  | some st => simp

theorem sim_agent_ids_loop_ok (config : SubmissionConfig) :
    ∀ tracks : List Track,
      (∀ t ∈ tracks, config.current_time_index < t.states.length) →
      sim_agent_ids_loop config tracks =
        .ok ((tracks.filter
          (fun t => t.validAt config.current_time_index)).map Track.id)
  | [], _ => by simp [sim_agent_ids_loop]
  | t :: rest, h => by
    have ht := is_valid_sim_agent_of_lt config t (h t (by simp))
    have ih := sim_agent_ids_loop_ok config rest
      (fun u hu => h u (by simp [hu]))
    by_cases hv : t.validAt config.current_time_index <;>
      simp [sim_agent_ids_loop, ht, ih, hv, List.filter_cons]

theorem sim_agent_ids_loop_error_kind (config : SubmissionConfig) :
    ∀ (tracks : List Track) (e : ValidationError),
      sim_agent_ids_loop config tracks = .error e → e = .StatesIndexError
  | [], e => by simp [sim_agent_ids_loop]
  | t :: rest, e => by
    intro h
    simp only [sim_agent_ids_loop] at h
    cases hv : config.is_valid_sim_agent t with
    | error e2 =>
      rw [hv] at h
      simp only at h
      injection h with h2
      subst h2
      exact is_valid_sim_agent_error_inv config t e2 hv
    | ok b =>
      rw [hv] at h
      simp only at h
      cases hrest : sim_agent_ids_loop config rest with
      | error e2 =>
        rw [hrest] at h
        simp only at h
        injection h with h2
        subst h2
        exact sim_agent_ids_loop_error_kind config rest e2 hrest
      | ok ids =>
        rw [hrest] at h
        simp at h

/-- C3: under the benchmark invariant that every track has a state at
`current_time_index`, `get_sim_agent_ids` returns exactly the ids of the
tracks valid at that index, in track order; the per-track predicate
`is_valid_sim_agent` returns the `valid` flag at that index, identically
for both profiles; and the result has no duplicates whenever the track
ids are pairwise distinct. -/
theorem get_sim_agent_ids_correct (scenario : Scenario)
    (challenge_type : ChallengeType)
    (h : ∀ t ∈ scenario.tracks,
      (get_submission_config challenge_type).current_time_index
        < t.states.length) :
    get_sim_agent_ids scenario challenge_type =
      .ok ((scenario.tracks.filter (fun t =>
        t.validAt
          (get_submission_config challenge_type).current_time_index)).map
        Track.id) ∧
    (∀ t ∈ scenario.tracks,
      (get_submission_config challenge_type).is_valid_sim_agent t =
        .ok (t.validAt
          (get_submission_config challenge_type).current_time_index)) ∧
    ((scenario.tracks.map Track.id).Nodup →
      ∀ l, get_sim_agent_ids scenario challenge_type = .ok l → l.Nodup) := by
  refine ⟨sim_agent_ids_loop_ok _ _ h,
    fun t ht => is_valid_sim_agent_of_lt _ t (h t ht), ?_⟩
  intro hnd l hl
  unfold get_sim_agent_ids at hl
  rw [sim_agent_ids_loop_ok _ _ h] at hl
  injection hl with hl2
  subst hl2
  exact List.Nodup.sublist
    ((List.filter_sublist scenario.tracks).map Track.id) hnd

theorem add_predicted_ids_ok (tracks : List Track) :
    ∀ (rps : List RequiredPrediction) (acc : List Int),
      acc.Nodup →
      (∀ rp ∈ rps, rp.track_index < tracks.length) →
      ∃ l, add_predicted_ids tracks rps acc = .ok l ∧ l.Nodup ∧
        ∀ i : Int, i ∈ l ↔ (i ∈ acc ∨
          ∃ rp ∈ rps, tracks[rp.track_index]?.map Track.id = some i)
  | [], acc, hnd, _ => by
    refine ⟨acc, by simp [add_predicted_ids], hnd, ?_⟩
    simp
  | rp :: rest, acc, hnd, hp => by
    have hlt := hp rp (by simp)
    obtain ⟨t, hget⟩ : ∃ t, tracks[rp.track_index]? = some t :=
      ⟨_, List.getElem?_eq_getElem hlt⟩
    by_cases hmem : t.id ∈ acc
    · obtain ⟨l, hok, hnd2, hiff⟩ := add_predicted_ids_ok tracks rest acc
        hnd (fun q hq => hp q (by simp [hq]))
      refine ⟨l, ?_, hnd2, ?_⟩
      · simp only [add_predicted_ids, hget, if_pos hmem]
        exact hok
      · intro i
        rw [hiff i]
        constructor
        · rintro (hi | ⟨q, hq, hqi⟩)
          · exact Or.inl hi
          · exact Or.inr ⟨q, by simp [hq], hqi⟩
        · rintro (hi | ⟨q, hq, hqi⟩)
          · exact Or.inl hi
          · rcases List.mem_cons.mp hq with rfl | hq2
            · rw [hget] at hqi
              simp only [Option.map_some', Option.some.injEq] at hqi
              exact Or.inl (hqi ▸ hmem)
            · exact Or.inr ⟨q, hq2, hqi⟩
    · obtain ⟨l, hok, hnd2, hiff⟩ := add_predicted_ids_ok tracks rest
        (acc ++ [t.id])
        (by
          rw [List.nodup_append]
          refine ⟨hnd, List.nodup_singleton _, ?_⟩
          intro a ha hat
          rw [List.mem_singleton] at hat
          subst hat
          exact hmem ha)
        (fun q hq => hp q (by simp [hq]))
      refine ⟨l, ?_, hnd2, ?_⟩
      · simp only [add_predicted_ids, hget, if_neg hmem]
        exact hok
      · intro i
        rw [hiff i]
        constructor
        · rintro (hi | ⟨q, hq, hqi⟩)
          · rcases List.mem_append.mp hi with hi2 | hi2
            · exact Or.inl hi2
            · simp only [List.mem_singleton] at hi2
              refine Or.inr ⟨rp, by simp, ?_⟩
              rw [hget, hi2]
              rfl
          · exact Or.inr ⟨q, by simp [hq], hqi⟩
        · rintro (hi | ⟨q, hq, hqi⟩)
          · exact Or.inl (List.mem_append.mpr (Or.inl hi))
          · rcases List.mem_cons.mp hq with rfl | hq2
            · rw [hget] at hqi
              simp only [Option.map_some', Option.some.injEq] at hqi
              exact Or.inl (List.mem_append.mpr (Or.inr (by simp [hqi])))
            · exact Or.inr ⟨q, hq2, hqi⟩

theorem add_predicted_ids_error_kind (tracks : List Track) :
    ∀ (rps : List RequiredPrediction) (acc : List Int) (e : ValidationError),
      add_predicted_ids tracks rps acc = .error e → e = .TracksIndexError
  | [], acc, e => by simp [add_predicted_ids]
  | rp :: rest, acc, e => by
    intro h
    simp only [add_predicted_ids] at h
    cases hget : tracks[rp.track_index]? with
    | none =>
      rw [hget] at h
      simp only at h
      injection h with h2
      exact h2.symm
    | some t =>
      rw [hget] at h
      simp only at h
      exact add_predicted_ids_error_kind tracks rest _ e h

/-- C4: for SIM_AGENTS, whenever `sdc_track_index` and every
`tracks_to_predict` entry reference existing tracks,
`get_evaluation_sim_agent_ids` returns the set-union of the SDC track id
and the referenced track ids, deduplicated and sorted ascending. -/
theorem get_evaluation_sim_agent_ids_sim_agents_correct
    (scenario : Scenario)
    (hsdc : scenario.sdc_track_index < scenario.tracks.length)
    (hp : ∀ rp ∈ scenario.tracks_to_predict,
      rp.track_index < scenario.tracks.length) :
    ∃ l, get_evaluation_sim_agent_ids scenario .SIM_AGENTS = .ok l ∧
      evaluation_ids_spec scenario l := by
  obtain ⟨t0, hget0⟩ :
      ∃ t, scenario.tracks[scenario.sdc_track_index]? = some t :=
    ⟨_, List.getElem?_eq_getElem hsdc⟩
  obtain ⟨l0, hok, hnd, hiff⟩ := add_predicted_ids_ok scenario.tracks
    scenario.tracks_to_predict [t0.id] (List.nodup_singleton _) hp
  refine ⟨l0.insertionSort (· ≤ ·), ?_, ?_, ?_, ?_⟩
  · unfold get_evaluation_sim_agent_ids
    rw [hget0]
    simp only [hok]
  · exact List.sorted_insertionSort _ _
  · exact (List.perm_insertionSort (fun a b => a ≤ b) l0).symm.nodup hnd
  · intro i
    rw [(List.perm_insertionSort (fun a b => a ≤ b) l0).mem_iff, hiff i,
      hget0]
    simp [eq_comm]

/-- C5 counterexample: in `scenarioCex` the SDC track is invalid at the
current step, so its id is returned by `get_evaluation_sim_agent_ids`
while `get_sim_agent_ids` returns the empty list; the evaluated ids are
not a subset of the simulated ids. -/
theorem evaluated_not_subset_counterexample :
    get_evaluation_sim_agent_ids scenarioCex .SIM_AGENTS = .ok [1] ∧
    get_sim_agent_ids scenarioCex .SIM_AGENTS = .ok [] ∧
    ¬ ((1 : Int) ∈ ([] : List Int)) :=
  ⟨by decide, by decide, by simp⟩

/-- C5 amended: for SIM_AGENTS with in-range track references, the
evaluated ids always contain the SDC track id; and under the additional
hypotheses that every track has a state at `current_time_index` and that
the SDC track and every `tracks_to_predict` track are valid there, the
evaluated ids are a subset of the simulated ids. -/
theorem evaluated_subset_simulated_amended (scenario : Scenario)
    (hsdc : scenario.sdc_track_index < scenario.tracks.length)
    (hp : ∀ rp ∈ scenario.tracks_to_predict,
      rp.track_index < scenario.tracks.length)
    (hstates : ∀ t ∈ scenario.tracks,
      (get_submission_config .SIM_AGENTS).current_time_index
        < t.states.length)
    (hvsdc : ∀ t, scenario.tracks[scenario.sdc_track_index]? = some t →
      t.validAt (get_submission_config .SIM_AGENTS).current_time_index
        = true)
    (hvp : ∀ rp ∈ scenario.tracks_to_predict, ∀ t,
      scenario.tracks[rp.track_index]? = some t →
      t.validAt (get_submission_config .SIM_AGENTS).current_time_index
        = true) :
    ∃ le ls, get_evaluation_sim_agent_ids scenario .SIM_AGENTS = .ok le ∧
      get_sim_agent_ids scenario .SIM_AGENTS = .ok ls ∧
      (∀ t, scenario.tracks[scenario.sdc_track_index]? = some t →
        t.id ∈ le) ∧
      ∀ i ∈ le, i ∈ ls := by
  obtain ⟨t0, hget0⟩ :
      ∃ t, scenario.tracks[scenario.sdc_track_index]? = some t :=
    ⟨_, List.getElem?_eq_getElem hsdc⟩
  obtain ⟨l0, hok, hnd, hiff⟩ := add_predicted_ids_ok scenario.tracks
    scenario.tracks_to_predict [t0.id] (List.nodup_singleton _) hp
  refine ⟨l0.insertionSort (· ≤ ·),
    (scenario.tracks.filter (fun t => t.validAt
      (get_submission_config .SIM_AGENTS).current_time_index)).map Track.id,
    ?_, ?_, ?_, ?_⟩
  · unfold get_evaluation_sim_agent_ids
    rw [hget0]
    simp only [hok]
  · unfold get_sim_agent_ids
    exact sim_agent_ids_loop_ok _ _ hstates
  · intro t ht
    rw [hget0] at ht
    injection ht with ht2
    subst ht2
    exact (List.perm_insertionSort (fun a b => a ≤ b) l0).mem_iff.mpr
      ((hiff _).mpr (Or.inl (by simp)))
  · intro i hi
    have hi0 := (List.perm_insertionSort (fun a b => a ≤ b) l0).mem_iff.mp hi
    rcases (hiff i).mp hi0 with hi1 | ⟨rp, hrp, hqi⟩
    · rw [List.mem_singleton] at hi1
      subst hi1
      exact List.mem_map.mpr ⟨t0,
        List.mem_filter.mpr ⟨List.getElem?_mem hget0, hvsdc t0 hget0⟩, rfl⟩
    · obtain ⟨t, hgt, hti⟩ := Option.map_eq_some'.mp hqi
      subst hti
      exact List.mem_map.mpr ⟨t,
        List.mem_filter.mpr ⟨List.getElem?_mem hgt, hvp rp hrp t hgt⟩, rfl⟩

/-- C6: for SCENARIO_GEN the evaluated ids are exactly the simulated ids
for every scenario, and the result is independent of the contents of
`tracks_to_predict` and of `sdc_track_index`. -/
theorem evaluation_ids_scenario_gen_eq :
    (∀ scenario : Scenario,
      get_evaluation_sim_agent_ids scenario .SCENARIO_GEN =
        get_sim_agent_ids scenario .SCENARIO_GEN) ∧
    (∀ (scenario : Scenario) (ttp : List RequiredPrediction) (idx : Nat),
      get_evaluation_sim_agent_ids
        { scenario with tracks_to_predict := ttp, sdc_track_index := idx }
        .SCENARIO_GEN =
      get_evaluation_sim_agent_ids scenario .SCENARIO_GEN) :=
  ⟨fun _ => rfl, fun _ _ _ => rfl⟩

/-- C7: `get_submission_config` is a pure function of the profile tag,
mapping SIM_AGENTS and SCENARIO_GEN to the two fixed constant
configurations of the table; every tag of the closed enumeration maps to
one of the two constants, so the error branch for unknown tags is
unreachable. -/
theorem get_submission_config_correct :
    get_submission_config .SIM_AGENTS =
      { current_time_index := 10
        n_simulation_steps := 80
        n_rollouts := 32
        step_duration_seconds := 1/10 } ∧
    get_submission_config .SCENARIO_GEN =
      { current_time_index := 10
        n_simulation_steps := 91
        n_rollouts := 32
        step_duration_seconds := 1/10 } ∧
    ∀ challenge_type,
      get_submission_config challenge_type = SIM_AGENTS_SUBMISSION_CONFIG ∨
      get_submission_config challenge_type
        = SCENARIO_GEN_SUBMISSION_CONFIG := by
  refine ⟨rfl, rfl, ?_⟩
  intro ct
  cases ct
  · exact Or.inl rfl
  · exact Or.inr rfl

/-- C8: the four core operations are deterministic: equal inputs give
equal outputs, including identical error values on failure. -/
theorem operations_deterministic :
    (∀ s1 s2 ct1 ct2, s1 = s2 → ct1 = ct2 →
      get_sim_agent_ids s1 ct1 = get_sim_agent_ids s2 ct2) ∧
    (∀ s1 s2 ct1 ct2, s1 = s2 → ct1 = ct2 →
      get_evaluation_sim_agent_ids s1 ct1 =
        get_evaluation_sim_agent_ids s2 ct2) ∧
    (∀ js1 js2 s1 s2 ct1 ct2, js1 = js2 → s1 = s2 → ct1 = ct2 →
      validate_joint_scene js1 s1 ct1 = validate_joint_scene js2 s2 ct2) ∧
    (∀ sr1 sr2 s1 s2 ct1 ct2, sr1 = sr2 → s1 = s2 → ct1 = ct2 →
      validate_scenario_rollouts sr1 s1 ct1 =
        validate_scenario_rollouts sr2 s2 ct2) := by
  refine ⟨?_, ?_, ?_, ?_⟩ <;> intros <;> subst_vars <;> rfl

/-- C9: a joint scene whose trajectories all conform (correct lengths,
required object ids) and which covers every required id validates
successfully even when some required id appears in two or more
trajectories; no dedicated uniqueness error exists. -/
theorem validate_joint_scene_accepts_duplicates (joint_scene : JointScene)
    (original_scenario : Scenario) (challenge_type : ChallengeType)
    (ids : List Int)
    (h : get_sim_agent_ids original_scenario challenge_type = .ok ids)
    (hok : ∀ t ∈ joint_scene.simulated_trajectories,
      trajectory_ok ids
        (get_submission_config challenge_type).n_simulation_steps t)
    (hcov : ∀ i ∈ ids, ∃ t ∈ joint_scene.simulated_trajectories,
      t.object_id = i)
    (_hdup : ∃ i j : Nat, i ≠ j ∧ ∃ t1 t2,
      joint_scene.simulated_trajectories[i]? = some t1 ∧
      joint_scene.simulated_trajectories[j]? = some t2 ∧
      t1.object_id = t2.object_id) :
    validate_joint_scene joint_scene original_scenario challenge_type
      = .ok () := by
  unfold validate_joint_scene
  rw [h]
  simp only
  rw [joint_scene_loop_ok_of ids _ _ [] hok]
  simp only [List.nil_append]
  have hcov2 : ∀ i ∈ ids,
      i ∈ joint_scene.simulated_trajectories.map
        SimulatedTrajectory.object_id := by
    intro i hi
    obtain ⟨t, ht, hti⟩ := hcov i hi
    exact List.mem_map.mpr ⟨t, ht, hti⟩
  have hnil := (missing_filter_nil ids _).mpr hcov2
  simp [hnil]
  exact hcov

theorem rollouts_loop_error_inv (original_scenario : Scenario)
    (challenge_type : ChallengeType) :
    ∀ (scenes : List JointScene) (e : ValidationError),
      rollouts_loop original_scenario challenge_type scenes = .error e →
      ∃ js ∈ scenes,
        validate_joint_scene js original_scenario challenge_type = .error e
  | [], e => by simp [rollouts_loop]
  | js :: rest, e => by
    intro h
    simp only [rollouts_loop] at h
    cases hv : validate_joint_scene js original_scenario challenge_type with
    | error e2 =>
      rw [hv] at h
      simp only at h
      injection h with h2
      subst h2
      exact ⟨js, by simp, hv⟩
    | ok u =>
      cases u
      rw [hv] at h
      simp only at h
      obtain ⟨js2, hjs2, he⟩ :=
        rollouts_loop_error_inv original_scenario challenge_type rest e h
      exact ⟨js2, by simp [hjs2], he⟩

theorem validate_joint_scene_no_states_error (scenario : Scenario)
    (challenge_type : ChallengeType)
    (h : ∀ t ∈ scenario.tracks,
      (get_submission_config challenge_type).current_time_index
        < t.states.length) (js : JointScene) :
    validate_joint_scene js scenario challenge_type
      ≠ .error .StatesIndexError := by
  intro heq
  unfold validate_joint_scene at heq
  have hsim : get_sim_agent_ids scenario challenge_type =
      .ok ((scenario.tracks.filter (fun t => t.validAt
        (get_submission_config challenge_type).current_time_index)).map
        Track.id) := by
    unfold get_sim_agent_ids
    exact sim_agent_ids_loop_ok _ _ h
  rw [hsim] at heq
  simp only at heq
  cases hloop : joint_scene_loop
      ((scenario.tracks.filter (fun t => t.validAt
        (get_submission_config challenge_type).current_time_index)).map
        Track.id)
      (get_submission_config challenge_type).n_simulation_steps
      js.simulated_trajectories [] with
  | error e2 =>
    rw [hloop] at heq
    simp only at heq
    injection heq with h2
    subst h2
    rcases joint_scene_loop_error_kind _ _ _ _ _ hloop with hk | hk <;>
      simp [ValidationError.isShapeMismatch,
        ValidationError.isUnknownAgent] at hk
  | ok res =>
    rw [hloop] at heq
    simp only [ne_eq] at heq
    split_ifs at heq with hcond
    injection heq with h2
    cases h2

/-- C10: when every track has a state at `current_time_index` (the
benchmark guarantees 11 history steps), the eligibility check and all
operations built on it never reach the out-of-range states access:
`is_valid_sim_agent` succeeds on every track, `get_sim_agent_ids`
succeeds, and neither `get_evaluation_sim_agent_ids` nor the two
validators can fail with `StatesIndexError`; without the precondition,
`is_valid_sim_agent` fails with `StatesIndexError` at the out-of-range
index. -/
theorem no_states_out_of_bounds (scenario : Scenario)
    (challenge_type : ChallengeType)
    (h : ∀ t ∈ scenario.tracks,
      (get_submission_config challenge_type).current_time_index
        < t.states.length) :
    (∀ t ∈ scenario.tracks, ∃ b,
      (get_submission_config challenge_type).is_valid_sim_agent t
        = .ok b) ∧
    (∃ l, get_sim_agent_ids scenario challenge_type = .ok l) ∧
    (get_evaluation_sim_agent_ids scenario challenge_type
      ≠ .error .StatesIndexError) ∧
    (∀ js, validate_joint_scene js scenario challenge_type
      ≠ .error .StatesIndexError) ∧
    (∀ sr, validate_scenario_rollouts sr scenario challenge_type
      ≠ .error .StatesIndexError) ∧
    (∀ track : Track,
      ¬ (get_submission_config challenge_type).current_time_index
          < track.states.length →
      (get_submission_config challenge_type).is_valid_sim_agent track
        = .error .StatesIndexError) := by
  have hsim : get_sim_agent_ids scenario challenge_type =
      .ok ((scenario.tracks.filter (fun t => t.validAt
        (get_submission_config challenge_type).current_time_index)).map
        Track.id) := by
    unfold get_sim_agent_ids
    exact sim_agent_ids_loop_ok _ _ h
  refine ⟨fun t ht => ⟨_, is_valid_sim_agent_of_lt _ t (h t ht)⟩,
    ⟨_, hsim⟩, ?_, validate_joint_scene_no_states_error scenario
      challenge_type h, ?_,
    fun track hnot => is_valid_sim_agent_oob _ track hnot⟩
  · cases challenge_type with
    | SIM_AGENTS =>
      intro heq
      unfold get_evaluation_sim_agent_ids at heq
      cases hget : scenario.tracks[scenario.sdc_track_index]? with
      | none =>
        rw [hget] at heq
        simp only at heq
        injection heq with h2
        cases h2
      | some t0 =>
        rw [hget] at heq
        simp only at heq
        cases hadd : add_predicted_ids scenario.tracks
            scenario.tracks_to_predict [t0.id] with
        | error e2 =>
          rw [hadd] at heq
          simp only at heq
          injection heq with h2
          rw [h2] at hadd
          have := add_predicted_ids_error_kind scenario.tracks
            scenario.tracks_to_predict [t0.id] _ hadd
          cases this
        | ok l0 =>
          rw [hadd] at heq
          simp only at heq
          exact absurd heq (by simp)
    | SCENARIO_GEN =>
      intro heq
      rw [show get_evaluation_sim_agent_ids scenario .SCENARIO_GEN =
        get_sim_agent_ids scenario .SCENARIO_GEN from rfl, hsim] at heq
      exact absurd heq (by simp)
  · intro sr heq
    unfold validate_scenario_rollouts at heq
    split_ifs at heq with h1 h2
    · injection heq with h3
      cases h3
    · injection heq with h3
      cases h3
    · obtain ⟨js, _, hjs⟩ :=
        rollouts_loop_error_inv scenario challenge_type _ _ heq
      exact validate_joint_scene_no_states_error scenario challenge_type
        h js hjs

/-- Witness for C1: the covering joint scene over `scenarioW` validates,
via the iff of the main theorem at concrete inputs. -/
theorem validate_joint_scene_correct_witness :
    get_sim_agent_ids scenarioW .SIM_AGENTS = .ok [1, 2] ∧
    validate_joint_scene jointSceneW scenarioW .SIM_AGENTS = .ok () :=
  ⟨by decide,
   (validate_joint_scene_correct jointSceneW scenarioW .SIM_AGENTS
     [1, 2] (by decide)).1.mpr (by decide)⟩

/-- Witness for C2: the 32-scene rollouts over `scenarioW` validate, via
the iff of the main theorem at concrete inputs. -/
theorem validate_scenario_rollouts_correct_witness :
    validate_scenario_rollouts rolloutsW scenarioW .SIM_AGENTS = .ok () :=
  (validate_scenario_rollouts_correct rolloutsW scenarioW
    .SIM_AGENTS).1.mpr (by decide)

/-- Witness for C3: on `scenarioMixed` only the track valid at step 10
is kept. -/
theorem get_sim_agent_ids_correct_witness :
    (∀ t ∈ scenarioMixed.tracks,
      (get_submission_config .SIM_AGENTS).current_time_index
        < t.states.length) ∧
    get_sim_agent_ids scenarioMixed .SIM_AGENTS = .ok [1] :=
  ⟨by decide,
   ((get_sim_agent_ids_correct scenarioMixed .SIM_AGENTS (by decide)).1).trans
     (by decide)⟩

/-- Witness for C4 at `scenarioW`. -/
theorem get_evaluation_sim_agent_ids_sim_agents_correct_witness :
    (scenarioW.sdc_track_index < scenarioW.tracks.length) ∧
    ∃ l, get_evaluation_sim_agent_ids scenarioW .SIM_AGENTS = .ok l ∧
      evaluation_ids_spec scenarioW l :=
  ⟨by decide,
   get_evaluation_sim_agent_ids_sim_agents_correct scenarioW (by decide)
     (by decide)⟩

/-- Witness for the amended C5 at `scenarioW`, whose SDC and predicted
tracks are valid at the current step. -/
theorem evaluated_subset_simulated_amended_witness :
    ∃ le ls, get_evaluation_sim_agent_ids scenarioW .SIM_AGENTS = .ok le ∧
      get_sim_agent_ids scenarioW .SIM_AGENTS = .ok ls ∧
      (∀ t, scenarioW.tracks[scenarioW.sdc_track_index]? = some t →
        t.id ∈ le) ∧
      ∀ i ∈ le, i ∈ ls :=
  evaluated_subset_simulated_amended scenarioW (by decide) (by decide)
    (by decide)
    (by
      intro t ht
      have h3 : (some trackA : Option Track) = some t := ht
      injection h3 with h2
      subst h2
      decide)
    (by
      intro rp hrp t ht
      simp only [scenarioW, List.mem_singleton] at hrp
      subst hrp
      have h3 : (some trackB : Option Track) = some t := ht
      injection h3 with h2
      subst h2
      decide)

/-- Witness for C8 at concrete equal inputs. -/
theorem operations_deterministic_witness :
    validate_joint_scene jointSceneW scenarioW .SIM_AGENTS =
      validate_joint_scene jointSceneW scenarioW .SIM_AGENTS :=
  operations_deterministic.2.2.1 jointSceneW jointSceneW scenarioW
    scenarioW .SIM_AGENTS .SIM_AGENTS rfl rfl rfl

/-- Witness for C9: a scene listing id 1 twice and id 2 once still
validates against `scenarioW`. -/
theorem validate_joint_scene_accepts_duplicates_witness :
    validate_joint_scene jointSceneDup scenarioW .SIM_AGENTS = .ok () :=
  validate_joint_scene_accepts_duplicates jointSceneDup scenarioW
    .SIM_AGENTS [1, 2] (by decide) (by decide) (by decide)
    ⟨0, 1, by decide, trajW 1, trajW 1, by decide, by decide, rfl⟩

/-- Witness for C10 at `scenarioW`, whose tracks all have 11 states. -/
theorem no_states_out_of_bounds_witness :
    (∀ t ∈ scenarioW.tracks,
      (get_submission_config .SIM_AGENTS).current_time_index
        < t.states.length) ∧
    ∃ l, get_sim_agent_ids scenarioW .SIM_AGENTS = .ok l :=
  ⟨by decide,
   (no_states_out_of_bounds scenarioW .SIM_AGENTS (by decide)).2.1⟩
